import Mathlib

/-!
Verification development for the ytscrape download orchestrator.

Shallow embedding of:
* the proxy rotation pool (src/proxy_rotator.py and src/socks5_proxy_fetcher.py —
  their rotation methods are textually identical, so one embedding covers both);
* the content-identifier hash and the duplicate-file lookup (src/ytscrp.py);
* the per-item worker control flow and task aggregation (src/ytscrp.py).

Python strings that the code inspects character by character are modelled as
List Char; strings that are only carried around opaquely are modelled as String.
Python exceptions are modelled with Except String.
-/

/-! ## Proxy pool state

Embeds the mutable fields of ProxyRotator (src/proxy_rotator.py lines 15-20)
and SOCKS5ProxyFetcher (src/socks5_proxy_fetcher.py lines 16-20): the proxy
list, the set of endpoints marked failed, and the rotation cursor.  The Python
set is modelled as a Finset. -/
structure PoolState where
  valid_proxies : List String
  failed_proxies : Finset String
  current_index : Nat
deriving DecidableEq

/-- The while-loop of get_next_proxy (src/socks5_proxy_fetcher.py lines 112-120,
identically src/proxy_rotator.py lines 117-125): up to one full wrap of
attempts, read the proxy at the cursor (an out-of-range read models Python
raising IndexError), advance the cursor modulo the list length, and return the
first proxy not in the failure set.  Exhaustion returns none together with the
cursor value after the wrap. -/
def rotLoop (valid : List String) (failed : Finset String) :
    Nat → Nat → Except String (Option String × Nat)
  | 0, idx => .ok (none, idx)
  | attempts + 1, idx =>
    match valid.get? idx with
    | none => .error "IndexError: list index out of range"
    | some proxy =>
      if proxy ∈ failed then rotLoop valid failed attempts ((idx + 1) % valid.length)
      else .ok (some proxy, (idx + 1) % valid.length)

/-- Shallow embedding of get_next_proxy (src/socks5_proxy_fetcher.py lines
105-129, identically src/proxy_rotator.py lines 110-134).  Empty pool returns
none; otherwise the rotation loop runs; if every proxy was skipped as failed,
the failure set is cleared and the proxy at the (wrapped-around) cursor is
returned.  Index accesses are modelled as fallible, mirroring Python list
indexing. -/
def get_next_proxy (s : PoolState) : Except String (Option String × PoolState) :=
  if s.valid_proxies = [] then .ok (none, s)
  else
    match rotLoop s.valid_proxies s.failed_proxies s.valid_proxies.length s.current_index with
    | .error e => .error e
    | .ok (some proxy, idx2) => .ok (some proxy, { s with current_index := idx2 })
    | .ok (none, idx2) =>
      match s.valid_proxies.get? idx2 with
      | none => .error "IndexError: list index out of range"
      | some proxy =>
        .ok (some proxy,
          { valid_proxies := s.valid_proxies, failed_proxies := ∅,
            current_index := (idx2 + 1) % s.valid_proxies.length })

/-- Shallow embedding of mark_proxy_failed (src/socks5_proxy_fetcher.py lines
146-150, identically src/proxy_rotator.py lines 151-155): add the endpoint to
the failure set. -/
def mark_proxy_failed (s : PoolState) (proxy : String) : PoolState :=
  { s with failed_proxies := insert proxy s.failed_proxies }

/-- Shallow embedding of the state update performed by fetch_fresh_proxies
(src/socks5_proxy_fetcher.py lines 89-92): the fetched list (network result,
passed here as a parameter) replaces valid_proxies and the failure set is
cleared.  The rotation cursor current_index is left unchanged, exactly as in
the source. -/
def fetch_fresh_proxies (s : PoolState) (fetched : List String) : PoolState :=
  { s with valid_proxies := fetched, failed_proxies := ∅ }

/-- Well-formedness of a pool state: the cursor is in range unless the pool is
empty.  This holds for freshly constructed pools and is preserved by
get_next_proxy and mark_proxy_failed. -/
def PoolWF (s : PoolState) : Prop :=
  s.valid_proxies = [] ∨ s.current_index < s.valid_proxies.length

/-- If every proxy of the list is in the failure set, the rotation loop skips
all of them, advancing the cursor one full wrap. -/
theorem rotLoop_all_failed (valid : List String) (failed : Finset String)
    (hall : ∀ p ∈ valid, p ∈ failed) :
    ∀ (k i : Nat), i < valid.length →
      rotLoop valid failed k i = .ok (none, (i + k) % valid.length) := by
  intro k
  induction k with
  | zero =>
    intro i hi
    simp [rotLoop, Nat.mod_eq_of_lt hi]
  | succ k ih =>
    intro i hi
    have hget : valid.get? i = some (valid.get ⟨i, hi⟩) := List.get?_eq_get hi
    have hfail : valid.get ⟨i, hi⟩ ∈ failed := hall _ (valid.get_mem _ _)
    have hlen : 0 < valid.length := Nat.lt_of_le_of_lt (Nat.zero_le i) hi
    have hrec := ih ((i + 1) % valid.length) (Nat.mod_lt _ hlen)
    have hmod : ((i + 1) % valid.length + k) % valid.length
        = (i + (k + 1)) % valid.length := by
      rw [Nat.mod_add_mod]
      congr 1
      omega
    simp only [rotLoop, hget, if_pos hfail, hrec, hmod]

/-- With an in-range cursor the rotation loop never raises: it returns ok, the
returned cursor is in range, and a found proxy belongs to the list and is not
in the failure set. -/
theorem rotLoop_ok (valid : List String) (failed : Finset String) :
    ∀ (k i : Nat), i < valid.length →
      ∃ res : Option String × Nat, rotLoop valid failed k i = .ok res ∧
        res.2 < valid.length ∧
        ∀ p, res.1 = some p → p ∈ valid ∧ p ∉ failed := by
  intro k
  induction k with
  | zero =>
    intro i hi
    exact ⟨(none, i), by simp [rotLoop], hi, by simp⟩
  | succ k ih =>
    intro i hi
    have hget : valid.get? i = some (valid.get ⟨i, hi⟩) := List.get?_eq_get hi
    have hlen : 0 < valid.length := Nat.lt_of_le_of_lt (Nat.zero_le i) hi
    by_cases hf : valid.get ⟨i, hi⟩ ∈ failed
    · obtain ⟨res, h1, h2, h3⟩ := ih ((i + 1) % valid.length) (Nat.mod_lt _ hlen)
      exact ⟨res, by simp only [rotLoop, hget, if_pos hf, h1], h2, h3⟩
    · refine ⟨(some (valid.get ⟨i, hi⟩), (i + 1) % valid.length),
        by simp only [rotLoop, hget, if_neg hf], Nat.mod_lt _ hlen, ?_⟩
      intro p hp
      obtain rfl : valid.get ⟨i, hi⟩ = p := Option.some.inj hp
      exact ⟨valid.get_mem _ _, hf⟩

/-- C3: after mark_proxy_failed has been called on every endpoint of a
non-empty pool, the next get_next_proxy call clears the failure set and
returns the endpoint at the current cursor — a member of the pool, never
none. -/
theorem get_next_proxy_after_all_failed (s : PoolState)
    (hidx : s.current_index < s.valid_proxies.length)
    (hall : ∀ p ∈ s.valid_proxies, p ∈ s.failed_proxies) :
    get_next_proxy s = Except.ok (some (s.valid_proxies.get ⟨s.current_index, hidx⟩),
      { valid_proxies := s.valid_proxies, failed_proxies := ∅,
        current_index := (s.current_index + 1) % s.valid_proxies.length }) ∧
    s.valid_proxies.get ⟨s.current_index, hidx⟩ ∈ s.valid_proxies := by
  have hne : s.valid_proxies ≠ [] := by
    intro h
    rw [h] at hidx
    exact absurd hidx (by simp)
  have hloop := rotLoop_all_failed s.valid_proxies s.failed_proxies hall
      s.valid_proxies.length s.current_index hidx
  have hidx2 : (s.current_index + s.valid_proxies.length) % s.valid_proxies.length
      = s.current_index := by
    rw [Nat.add_mod_right]
    exact Nat.mod_eq_of_lt hidx
  have hget : s.valid_proxies.get? s.current_index
      = some (s.valid_proxies.get ⟨s.current_index, hidx⟩) := List.get?_eq_get hidx
  refine ⟨?_, s.valid_proxies.get_mem _ _⟩
  simp only [get_next_proxy, if_neg hne, hloop, hidx2, hget]

/-- Witness for C3 on a concrete two-proxy pool with both endpoints failed. -/
theorem get_next_proxy_after_all_failed_witness :
    get_next_proxy
        { valid_proxies := ["a", "b"], failed_proxies := {"a", "b"}, current_index := 0 }
      = Except.ok (some "a",
          { valid_proxies := ["a", "b"], failed_proxies := ∅, current_index := 1 }) := by
  have h := get_next_proxy_after_all_failed
    { valid_proxies := ["a", "b"], failed_proxies := {"a", "b"}, current_index := 0 }
    (by decide) (by decide)
  exact h.1

/-- C6: get_next_proxy returns none exactly when the proxy list is empty; on a
well-formed non-empty pool it returns a member of the pool.  The embedding is
a total function, reflecting that the source never waits for an endpoint. -/
theorem get_next_proxy_none_iff (s : PoolState) (h : PoolWF s) :
    ((∃ s2, get_next_proxy s = Except.ok (none, s2)) ↔ s.valid_proxies = []) ∧
    (s.valid_proxies ≠ [] →
      ∃ p s2, get_next_proxy s = Except.ok (some p, s2) ∧ p ∈ s.valid_proxies) := by
  by_cases hne : s.valid_proxies = []
  · have hres : get_next_proxy s = Except.ok (none, s) := by
      rw [get_next_proxy, if_pos hne]
    exact ⟨⟨fun _ => hne, fun _ => ⟨s, hres⟩⟩, fun hc => absurd hne hc⟩
  · have hidx : s.current_index < s.valid_proxies.length := by
      rcases h with h | h
      · exact absurd h hne
      · exact h
    obtain ⟨res, h1, h2, h3⟩ :=
      rotLoop_ok s.valid_proxies s.failed_proxies s.valid_proxies.length s.current_index hidx
    obtain ⟨o, idx2⟩ := res
    have key : ∃ p s2, get_next_proxy s = Except.ok (some p, s2) ∧ p ∈ s.valid_proxies := by
      cases o with
      | some proxy =>
        refine ⟨proxy, { s with current_index := idx2 }, ?_, (h3 proxy rfl).1⟩
        simp only [get_next_proxy, if_neg hne, h1]
      | none =>
        have hget : s.valid_proxies.get? idx2 = some (s.valid_proxies.get ⟨idx2, h2⟩) :=
          List.get?_eq_get h2
        refine ⟨s.valid_proxies.get ⟨idx2, h2⟩,
          { valid_proxies := s.valid_proxies, failed_proxies := ∅,
            current_index := (idx2 + 1) % s.valid_proxies.length },
          ?_, s.valid_proxies.get_mem _ _⟩
        simp only [get_next_proxy, if_neg hne, h1, hget]
    obtain ⟨p, s2, hp, hmem⟩ := key
    constructor
    · constructor
      · intro hc
        obtain ⟨s3, hs3⟩ := hc
        rw [hp] at hs3
        simp at hs3
      · intro hc
        exact absurd hc hne
    · intro _
      exact ⟨p, s2, hp, hmem⟩

/-- Witness for C6 on a concrete non-empty pool. -/
theorem get_next_proxy_none_iff_witness :
    ∃ p s2,
      get_next_proxy
          { valid_proxies := ["a", "b"], failed_proxies := ∅, current_index := 0 }
        = Except.ok (some p, s2) ∧
      p ∈ ({ valid_proxies := ["a", "b"], failed_proxies := ∅,
             current_index := 0 } : PoolState).valid_proxies :=
  (get_next_proxy_none_iff
    { valid_proxies := ["a", "b"], failed_proxies := ∅, current_index := 0 }
    (Or.inr (by decide))).2 (by decide)

/-- C9: mark_proxy_failed is idempotent and afterwards the endpoint is in the
failure set. -/
theorem mark_proxy_failed_idempotent (s : PoolState) (p : String) :
    mark_proxy_failed (mark_proxy_failed s p) p = mark_proxy_failed s p ∧
    p ∈ (mark_proxy_failed s p).failed_proxies := by
  constructor
  · simp [mark_proxy_failed]
  · simp [mark_proxy_failed]

/-- C10 (amended): on a well-formed state, get_next_proxy's index accesses are
in bounds — it returns ok and preserves well-formedness — and
mark_proxy_failed preserves well-formedness; a pool refresh preserves it only
when the new list is empty or longer than the current cursor. -/
theorem get_next_proxy_wf_preserved (s : PoolState) (h : PoolWF s) :
    (∃ r, get_next_proxy s = Except.ok r ∧ PoolWF r.2) ∧
    (∀ p, PoolWF (mark_proxy_failed s p)) ∧
    (∀ fetched, (fetched = [] ∨ s.current_index < fetched.length) →
      PoolWF (fetch_fresh_proxies s fetched)) := by
  refine ⟨?_, ?_, ?_⟩
  · by_cases hne : s.valid_proxies = []
    · refine ⟨(none, s), ?_, h⟩
      rw [get_next_proxy, if_pos hne]
    · have hidx : s.current_index < s.valid_proxies.length := by
        rcases h with h | h
        · exact absurd h hne
        · exact h
      obtain ⟨res, h1, h2, _⟩ :=
        rotLoop_ok s.valid_proxies s.failed_proxies s.valid_proxies.length s.current_index hidx
      obtain ⟨o, idx2⟩ := res
      have hlen : 0 < s.valid_proxies.length := by
        cases hv : s.valid_proxies with
        | nil => exact absurd hv hne
        | cons a t => simp [hv]
      cases o with
      | some proxy =>
        refine ⟨(some proxy, { s with current_index := idx2 }), ?_, Or.inr h2⟩
        simp only [get_next_proxy, if_neg hne, h1]
      | none =>
        have hget : s.valid_proxies.get? idx2 = some (s.valid_proxies.get ⟨idx2, h2⟩) :=
          List.get?_eq_get h2
        refine ⟨(some (s.valid_proxies.get ⟨idx2, h2⟩),
          { valid_proxies := s.valid_proxies, failed_proxies := ∅,
            current_index := (idx2 + 1) % s.valid_proxies.length }),
          ?_, Or.inr (Nat.mod_lt _ hlen)⟩
        simp only [get_next_proxy, if_neg hne, h1, hget]
  · intro p
    rcases h with h | h
    · exact Or.inl h
    · exact Or.inr h
  · intro fetched hf
    rcases hf with hf | hf
    · exact Or.inl hf
    · exact Or.inr hf

/-- Witness for C10's amended theorem on a concrete well-formed pool. -/
theorem get_next_proxy_wf_preserved_witness :
    ∃ r,
      get_next_proxy
          { valid_proxies := ["a", "b"], failed_proxies := ∅, current_index := 1 }
        = Except.ok r ∧ PoolWF r.2 :=
  (get_next_proxy_wf_preserved
    { valid_proxies := ["a", "b"], failed_proxies := ∅, current_index := 1 }
    (Or.inr (by decide))).1

/-- C10 counterexample: starting from a fresh two-proxy pool, one
get_next_proxy call advances the cursor to 1; a refresh that installs the
strictly shorter list ["c"] keeps the cursor at 1, and the next
get_next_proxy call performs an out-of-range index access (Python raises
IndexError). -/
theorem get_next_proxy_refresh_oob :
    get_next_proxy { valid_proxies := ["a", "b"], failed_proxies := ∅, current_index := 0 }
      = Except.ok (some "a",
          { valid_proxies := ["a", "b"], failed_proxies := ∅, current_index := 1 }) ∧
    fetch_fresh_proxies
        { valid_proxies := ["a", "b"], failed_proxies := ∅, current_index := 1 } ["c"]
      = { valid_proxies := ["c"], failed_proxies := ∅, current_index := 1 } ∧
    get_next_proxy { valid_proxies := ["c"], failed_proxies := ∅, current_index := 1 }
      = Except.error "IndexError: list index out of range" := by
  refine ⟨rfl, rfl, rfl⟩

/-! ## Python string model

Character-level helpers mirroring the Python str operations used by
generate_video_id_hash and check_existing_file.  Python strings are modelled
as List Char.  All recursions are structural (fuel where needed) so that
concrete instances evaluate inside the kernel. -/

/-- Python substring containment (the in operator): some suffix of s starts
with sub.  The empty string is contained in every string, as in Python. -/
def pyContains (sub : List Char) : List Char → Bool
  | [] => sub.isEmpty
  | c :: rest => sub.isPrefixOf (c :: rest) || pyContains sub rest

/-- Worker for pySplit: scan s left to right; whenever sep is a prefix of the
remainder, close the current chunk and continue after sep.  The fuel argument
(always called with the length of s, which bounds the number of scan steps)
keeps the recursion structural. -/
def pySplitAux (sep : List Char) : Nat → List Char → List Char → List (List Char)
  | _, [], acc => [acc.reverse]
  | 0, s, acc => [acc.reverse ++ s]
  | fuel + 1, c :: rest, acc =>
    if sep.isPrefixOf (c :: rest) then
      acc.reverse :: pySplitAux sep fuel (List.drop sep.length (c :: rest)) []
    else
      pySplitAux sep fuel rest (c :: acc)

/-- Python str.split(sep) for a non-empty separator: left-to-right,
non-overlapping occurrences, keeping empty chunks. -/
def pySplit (sep s : List Char) : List (List Char) :=
  pySplitAux sep s.length s []

/-- The video-id extraction of generate_video_id_hash (src/ytscrp.py lines
43-49): the three URL shapes checked with the Python in operator, each
extracting the segment after the marker and before the next delimiter via
str.split indexing. -/
def extractVideoId (url : List Char) : Option (List Char) :=
  if pyContains "youtube.com/watch?v=".toList url then
    some ((pySplit "&".toList ((pySplit "watch?v=".toList url).getD 1 [])).getD 0 [])
  else if pyContains "youtu.be/".toList url then
    some ((pySplit "?".toList ((pySplit "youtu.be/".toList url).getD 1 [])).getD 0 [])
  else if pyContains "/video/".toList url then
    some ((pySplit "/".toList ((pySplit "/video/".toList url).getD 1 [])).getD 0 [])
  else none

/-- Shallow embedding of generate_video_id_hash (src/ytscrp.py lines 40-55).
The MD5 hex digest comes from Python's hashlib, external to this repository,
so it is passed as an explicit function parameter md5hex; the Python slice
[:12] is List.take 12.  A non-empty extracted video id is hashed on its own
(Python: if video_id, where the empty string is falsy); otherwise the whole
URL is hashed. -/
def generate_video_id_hash (md5hex : List Char → List Char) (url : List Char) : List Char :=
  match extractVideoId url with
  | some video_id =>
    if video_id ≠ [] then (md5hex video_id).take 12
    else (md5hex url).take 12
  | none => (md5hex url).take 12

/-- C8: the content identifier is a deterministic function of the source
reference; whenever a canonical video-id segment is parsed from the URL the
identifier depends only on that segment (two URLs extracting the same id hash
identically, and the result is the truncated hash of the id); with no
parsed segment it is the truncated hash of the whole reference. -/
theorem generate_video_id_hash_deterministic (md5hex : List Char → List Char)
    (u1 u2 : List Char) :
    generate_video_id_hash md5hex u1 = generate_video_id_hash md5hex u1 ∧
    (∀ vid, vid ≠ [] → extractVideoId u1 = some vid → extractVideoId u2 = some vid →
      generate_video_id_hash md5hex u1 = generate_video_id_hash md5hex u2) ∧
    (∀ vid, vid ≠ [] → extractVideoId u1 = some vid →
      generate_video_id_hash md5hex u1 = (md5hex vid).take 12) ∧
    (extractVideoId u1 = none →
      generate_video_id_hash md5hex u1 = (md5hex u1).take 12) := by
  refine ⟨rfl, ?_, ?_, ?_⟩
  · intro vid hv h1 h2
    simp only [generate_video_id_hash, h1, h2, if_pos hv]
  · intro vid hv h1
    simp only [generate_video_id_hash, h1, if_pos hv]
  · intro h1
    simp only [generate_video_id_hash, h1]

/-- Witness for C8: a youtube.com watch URL with an extra query parameter and
a youtu.be short URL carrying the same id XYZ123 produce the same identifier,
for a concrete digest function. -/
theorem generate_video_id_hash_deterministic_witness :
    generate_video_id_hash (fun s => s ++ s) "https://www.youtube.com/watch?v=XYZ123&list=PL9".toList
      = generate_video_id_hash (fun s => s ++ s) "https://youtu.be/XYZ123".toList :=
  (generate_video_id_hash_deterministic (fun s => s ++ s)
      "https://www.youtube.com/watch?v=XYZ123&list=PL9".toList
      "https://youtu.be/XYZ123".toList).2.1
    "XYZ123".toList (by decide) (by decide) (by decide)

/-! ## Duplicate file lookup (check_existing_file, src/ytscrp.py lines 57-101)

The filesystem is modelled by the list of regular file names of the download
directory, in directory-listing order (the order in which glob.glob and
os.listdir enumerate them); a missing directory is the none case. -/

/-- Python str.isspace for the ASCII whitespace characters stripped by
str.strip (space, tab, newline, carriage return, vertical tab, form feed). -/
def isPySpace (c : Char) : Bool :=
  c == ' ' || c == '\t' || c == '\n' || c == '\r' || c.toNat == 11 || c.toNat == 12

/-- Python str.strip(): drop leading and trailing whitespace. -/
def pyStrip (s : List Char) : List Char :=
  ((s.dropWhile isPySpace).reverse.dropWhile isPySpace).reverse

/-- Shallow embedding of sanitize_filename (src/ytscrp.py lines 30-38):
replace filesystem-problematic characters by underscore, delete control
characters (0x00-0x1f and 0x7f-0x9f), cap at 200 characters, strip. -/
def sanitize_filename (s : List Char) : List Char :=
  let bad : List Char := ['<', '>', ':', '\"', '/', '\\', '|', '?', '*']
  let s1 := s.map (fun c => if bad.contains c then '_' else c)
  let s2 := s1.filter (fun c => !(c.toNat ≤ 31 || (127 ≤ c.toNat && c.toNat ≤ 159)))
  let s3 := if s2.length > 200 then s2.take 200 else s2
  pyStrip s3

/-- os.path.splitext on a bare filename: the extension starts at the last dot
that has at least one non-dot character before it (so purely leading dots do
not start an extension, as in CPython). -/
def splitext (s : List Char) : List Char × List Char :=
  match ((List.range s.length).filter (fun i => s.getD i ' ' == '.')).getLast? with
  | none => (s, [])
  | some di =>
    if 0 < di && (s.take di).any (fun c => c != '.') then (s.take di, s.drop di)
    else (s, [])

/-- Worker for pySplitWs, accumulating the current word reversed. -/
def pySplitWsAux : List Char → List Char → List (List Char)
  | [], cur => if cur.isEmpty then [] else [cur.reverse]
  | c :: rest, cur =>
    if isPySpace c then
      if cur.isEmpty then pySplitWsAux rest [] else cur.reverse :: pySplitWsAux rest []
    else pySplitWsAux rest (c :: cur)

/-- Python str.split() with no argument: split on whitespace runs, discarding
empty chunks. -/
def pySplitWs (s : List Char) : List (List Char) :=
  pySplitWsAux s []

/-- fnmatch-style matching as performed by glob.glob on the patterns built in
check_existing_file: a star matches any (possibly empty) character sequence, a
question mark one character, anything else itself.  (Bracket character classes
never occur in those patterns: the title is sanitized and the hash is
hexadecimal.)  The fuel argument, always instantiated so that it bounds the
recursion depth, keeps the definition structural. -/
def globMatchAux : Nat → List Char → List Char → Bool
  | 0, p, s => p.isEmpty && s.isEmpty
  | fuel + 1, p, s =>
    match p, s with
    | [], [] => true
    | [], _ :: _ => false
    | '*' :: p2, [] => globMatchAux fuel p2 []
    | '*' :: p2, c :: s2 => globMatchAux fuel p2 (c :: s2) || globMatchAux fuel ('*' :: p2) s2
    | '?' :: _, [] => false
    | '?' :: p2, _ :: s2 => globMatchAux fuel p2 s2
    | _ :: _, [] => false
    | a :: p2, c :: s2 => a == c && globMatchAux fuel p2 s2

/-- Glob pattern matching against a single filename. -/
def globMatch (pattern name : List Char) : Bool :=
  globMatchAux (pattern.length + name.length + 1) pattern name

/-- Shallow embedding of check_existing_file (src/ytscrp.py lines 57-101).
First stage: for each extension of the media-type extension set and each of
the three glob patterns (exact sanitized-title-plus-hash name, the same with a
yt-dlp format-code infix, and any name containing the hash), return the first
matching file.  Fallback stage: return the first file whose extension is in
the extension set and whose lowercase token-set Jaccard similarity with the
sanitized title exceeds 0.7.  Python compares len(inter)/len(union) > 0.7 in
floating point; for token-set cardinalities this coincides with the exact
rational comparison 10 * inter > 7 * union used here. -/
def check_existing_file (dirFiles : Option (List (List Char)))
    (title video_id_hash : List Char) (audio_only : Bool) : Option (List Char) :=
  match dirFiles with
  | none => none
  | some files =>
    let sanitized_title := sanitize_filename title
    let possible_extensions : List (List Char) :=
      if !audio_only then
        [".mp4".toList, ".webm".toList, ".mkv".toList, ".avi".toList, ".mov".toList]
      else [".mp3".toList, ".m4a".toList, ".webm".toList, ".ogg".toList]
    let globStage : Option (List Char) :=
      possible_extensions.findSome? (fun e =>
        [ sanitized_title ++ "_".toList ++ video_id_hash ++ e,
          sanitized_title ++ "_".toList ++ video_id_hash ++ ".f*".toList ++ e,
          "*".toList ++ video_id_hash ++ "*".toList ++ e ].findSome? (fun pat =>
            files.find? (fun f => globMatch pat f)))
    match globStage with
    | some f => some f
    | none =>
      files.find? (fun existing_file =>
        let existing_name := (splitext existing_file).1
        let existing_ext := (splitext existing_file).2
        if !(possible_extensions.contains existing_ext) then false
        else
          let title_words := (pySplitWs (sanitized_title.map Char.toLower)).toFinset
          let existing_words := (pySplitWs (existing_name.map Char.toLower)).toFinset
          if 0 < title_words.card then
            decide (10 * (title_words ∩ existing_words).card
              > 7 * (title_words ∪ existing_words).card)
          else false)

/-- C5: a directory holding Song Title_abc123def456.mp3 is a hit for the
lookup with matching title, content id and the audio extension set, and a
miss for the same lookup with the video extension set. -/
theorem check_existing_file_exact_id_match :
    check_existing_file (some ["Song Title_abc123def456.mp3".toList])
        "Song Title".toList "abc123def456".toList true
      = some "Song Title_abc123def456.mp3".toList ∧
    check_existing_file (some ["Song Title_abc123def456.mp3".toList])
        "Song Title".toList "abc123def456".toList false
      = none := by
  refine ⟨by decide, by decide⟩

/-- C4 counterexample: contrary to the claim, the lookup of Some Random Vid
against a directory holding Some Random Video.webm returns no match — the
token sets share 2 of 4 words, a Jaccard similarity of 0.5, which does not
exceed the 0.7 threshold. -/
theorem check_existing_file_similarity_claim_false :
    check_existing_file (some ["Some Random Video.webm".toList])
        "Some Random Vid".toList "unknown-id".toList false
      = none := by
  decide

/-- C4 (amended): against a directory holding Some Random Video.webm, the
lookups for Some Random Vid (similarity 0.5) and Completely Unrelated
(similarity 0) both return no match, while a title whose token overlap does
exceed 0.7 — Some Random Video again, similarity 0.75 — is returned via the
token-set similarity fallback. -/
theorem check_existing_file_similarity_fallback :
    check_existing_file (some ["Some Random Video.webm".toList])
        "Some Random Vid".toList "unknown-id".toList false
      = none ∧
    check_existing_file (some ["Some Random Video.webm".toList])
        "Completely Unrelated".toList "unknown-id".toList false
      = none ∧
    check_existing_file (some ["Some Random Video.webm".toList])
        "Some Random Video again".toList "unknown-id".toList false
      = some "Some Random Video.webm".toList := by
  refine ⟨by decide, by decide, by decide⟩

/-! ## Per-item worker flow and task aggregation (src/ytscrp.py) -/

/-- The item status values of VideoDownload.status (src/ytscrp.py line 184). -/
inductive ItemStatus
  | pending
  | checking
  | skipped
  | downloading
  | completed
  | failed
deriving BEq, DecidableEq

/-- The statuses an item can hold once its worker has finished
(download_single_video always leaves the item completed, skipped or failed). -/
def ItemStatus.isTerminal : ItemStatus → Bool
  | .completed => true
  | .failed => true
  | .skipped => true
  | _ => false

/-- Number of items of a snapshot holding the given status. -/
def countStatus (st : ItemStatus) (snapshot : List ItemStatus) : Nat :=
  snapshot.countP (fun s => decide (s = st))

/-- Environment of one worker item: the outcomes of the external calls made
by download_single_video.  dup_check is the check_existing_file call (error
models the call raising; it is Except.ok none when skip_duplicates is off);
fetch is the yt-dlp fetch-provider call (error e models the provider raising
with message e, ok (some f) a download whose output file f was resolved,
ok none a download after which no output file could be located). -/
structure ItemEnv where
  dup_check : Except String (Option String)
  fetch : Except String (Option String)

/-- Final per-item record: the fields of VideoDownload that the claims
observe. -/
structure ItemResult where
  status : ItemStatus
  filename : String
  error : String
deriving DecidableEq

/-- Shallow embedding of the control flow of download_single_video
(src/ytscrp.py lines 762-876).  The try-body checks for duplicates (hit sets
skipped, lines 777-793), then downloads (resolved filename sets completed,
lines 843-856; an unresolved filename sets failed with a descriptive error,
lines 857-863).  Any exception raised in the body is caught by the handler at
lines 868-876, which sets failed and stores the message verbatim. -/
def download_single_video (skip_duplicates : Bool) (env : ItemEnv) : ItemResult :=
  let body : Except String ItemResult :=
    match (if skip_duplicates then env.dup_check else Except.ok none) with
    | .error e => .error e
    | .ok (some existing) => .ok { status := .skipped, filename := existing, error := "" }
    | .ok none =>
      match env.fetch with
      | .error e => .error e
      | .ok (some fn) => .ok { status := .completed, filename := fn, error := "" }
      | .ok none =>
        .ok { status := .failed, filename := "", error := "Downloaded but file not found" }
  match body with
  | .ok r => r
  | .error e => { status := .failed, filename := "", error := e }

/-- The task fields the claims observe after the worker wave. -/
structure TaskResult where
  status : String
  success_count : Nat
  failure_count : Nat
  items : List ItemResult
deriving DecidableEq

/-- Shallow embedding of the deterministic control flow of
process_download_enhanced (src/ytscrp.py lines 539-598): an empty resolved
item list fails the task (line 555); otherwise every item runs
download_single_video, the counters are recomputed from the item statuses
(lines 583-586), and the task status is set to completed unconditionally
(line 594) — item failures do not fail the task. -/
def process_download_enhanced (skip_duplicates : Bool) (envs : List ItemEnv) : TaskResult :=
  match envs with
  | [] => { status := "failed", success_count := 0, failure_count := 0, items := [] }
  | _ :: _ =>
    let items := (envs.map (download_single_video skip_duplicates))
    { status := "completed"
      success_count := items.countP (fun r => r.status == .completed || r.status == .skipped)
      failure_count := items.countP (fun r => r.status == .failed)
      items := items }

/-- Whatever the outcomes of its external calls, download_single_video leaves
the item in a terminal status. -/
theorem download_single_video_terminal (skip_duplicates : Bool) (env : ItemEnv) :
    ((download_single_video skip_duplicates env).status).isTerminal = true := by
  obtain ⟨dc, f⟩ := env
  cases skip_duplicates <;>
    rcases dc with e | (_ | _) <;>
      rcases f with e2 | (_ | _) <;>
        simp [download_single_video, ItemStatus.isTerminal]

/-- C1: in every snapshot the completed, failed and skipped counts sum to at
most the item total; the sum equals the total when every item is terminal;
and after the worker wave of process_download_enhanced every item is
terminal, so its final snapshot attains equality. -/
theorem item_counts_bounded (snapshot : List ItemStatus) :
    countStatus .completed snapshot + countStatus .failed snapshot
        + countStatus .skipped snapshot ≤ snapshot.length ∧
    ((∀ s ∈ snapshot, s.isTerminal = true) →
      countStatus .completed snapshot + countStatus .failed snapshot
        + countStatus .skipped snapshot = snapshot.length) ∧
    (∀ skip_duplicates envs,
      countStatus .completed
          (((process_download_enhanced skip_duplicates envs).items).map ItemResult.status)
        + countStatus .failed
          (((process_download_enhanced skip_duplicates envs).items).map ItemResult.status)
        + countStatus .skipped
          (((process_download_enhanced skip_duplicates envs).items).map ItemResult.status)
        = ((process_download_enhanced skip_duplicates envs).items).length) := by
  have key : ∀ l : List ItemStatus,
      (countStatus .completed l + countStatus .failed l + countStatus .skipped l
        ≤ l.length) ∧
      ((∀ s ∈ l, s.isTerminal = true) →
        countStatus .completed l + countStatus .failed l + countStatus .skipped l
          = l.length) := by
    intro l
    induction l with
    | nil => exact ⟨Nat.le_refl 0, fun _ => rfl⟩
    | cons a t ih =>
      obtain ⟨ih1, ih2⟩ := ih
      constructor
      · cases a <;> simp [countStatus, List.countP_cons] at * <;> omega
      · intro hall
        have ht : ∀ s ∈ t, s.isTerminal = true := fun s hs => hall s (List.mem_cons_of_mem a hs)
        have ha : a.isTerminal = true := hall a (List.mem_cons_self a t)
        have ih2t := ih2 ht
        cases a <;> simp [ItemStatus.isTerminal] at ha ⊢ <;>
          simp [countStatus, List.countP_cons] at * <;> omega
  refine ⟨(key snapshot).1, (key snapshot).2, ?_⟩
  intro skip_duplicates envs
  have hterm : ∀ s ∈ ((process_download_enhanced skip_duplicates envs).items).map
      ItemResult.status, s.isTerminal = true := by
    intro s hs
    obtain ⟨r, hr, rfl⟩ := List.mem_map.mp hs
    cases envs with
    | nil => simp [process_download_enhanced] at hr
    | cons e t =>
      simp only [process_download_enhanced] at hr
      obtain ⟨env, _, rfl⟩ := List.mem_map.mp hr
      exact download_single_video_terminal skip_duplicates env
  have heq := (key (((process_download_enhanced skip_duplicates envs).items).map
      ItemResult.status)).2 hterm
  simpa [List.length_map] using heq

/-- Witness for C1 on a concrete all-terminal snapshot of three items. -/
theorem item_counts_bounded_witness :
    countStatus .completed [ItemStatus.completed, ItemStatus.failed, ItemStatus.skipped]
      + countStatus .failed [ItemStatus.completed, ItemStatus.failed, ItemStatus.skipped]
      + countStatus .skipped [ItemStatus.completed, ItemStatus.failed, ItemStatus.skipped]
      = 3 :=
  (item_counts_bounded [ItemStatus.completed, ItemStatus.failed, ItemStatus.skipped]).2.1
    (by intro s hs; fin_cases hs <;> rfl)

/-- C2: with three resolved items whose duplicate checks miss, where only the
second item's fetch-provider call raises, items one and three end completed,
item two ends failed with its message preserved verbatim, the task status is
completed, and the failure count is 1. -/
theorem task_survives_single_item_failure (msg f1 f3 : String) :
    (process_download_enhanced true
        [⟨Except.ok none, Except.ok (some f1)⟩,
         ⟨Except.ok none, Except.error msg⟩,
         ⟨Except.ok none, Except.ok (some f3)⟩]).items.map ItemResult.status
      = [ItemStatus.completed, ItemStatus.failed, ItemStatus.completed] ∧
    ((process_download_enhanced true
        [⟨Except.ok none, Except.ok (some f1)⟩,
         ⟨Except.ok none, Except.error msg⟩,
         ⟨Except.ok none, Except.ok (some f3)⟩]).items.getD 1
      { status := .pending, filename := "", error := "" }).error = msg ∧
    (process_download_enhanced true
        [⟨Except.ok none, Except.ok (some f1)⟩,
         ⟨Except.ok none, Except.error msg⟩,
         ⟨Except.ok none, Except.ok (some f3)⟩]).status = "completed" ∧
    (process_download_enhanced true
        [⟨Except.ok none, Except.ok (some f1)⟩,
         ⟨Except.ok none, Except.error msg⟩,
         ⟨Except.ok none, Except.ok (some f3)⟩]).failure_count = 1 := by
  refine ⟨rfl, rfl, rfl, rfl⟩

/-- C7 counterexample: a raising duplicate check is not treated as a
duplicate-miss — the item does not proceed to download (here the fetch would
have succeeded) but ends failed, the exception being caught by the generic
per-item handler (src/ytscrp.py lines 868-876). -/
theorem dup_check_error_not_a_miss :
    download_single_video true ⟨Except.error "DuplicateCheckError", Except.ok (some "out.mp4")⟩
      = { status := .failed, filename := "", error := "DuplicateCheckError" } := by
  rfl

/-- C7 (amended): when the duplicate-existence check raises, the per-item
exception handler marks the item failed with the error message preserved; the
fetch does not run and the item never reaches the downloading phase. -/
theorem dup_check_error_is_item_fatal (e : String) (env : ItemEnv)
    (h : env.dup_check = Except.error e) :
    download_single_video true env = { status := .failed, filename := "", error := e } := by
  simp [download_single_video, h]

/-- Witness for C7's amended theorem at a concrete raising environment. -/
theorem dup_check_error_is_item_fatal_witness :
    download_single_video true ⟨Except.error "boom", Except.ok (some "out.mp4")⟩
      = { status := .failed, filename := "", error := "boom" } :=
  dup_check_error_is_item_fatal "boom" ⟨Except.error "boom", Except.ok (some "out.mp4")⟩ rfl
